import Mathlib

/-!
# SJSU-Dev2: the documentation search index and the HAL contracts it names

The repository material consists of two generated search-index files,
`api/html/search/all_15.js` and `api/html/search/all_b.js`.  Each assigns an array
literal to `searchData`; an element has the shape
`[key, [name, [url, flag, scope], [url, flag, scope], ...]]`.

The first part of this development embeds both arrays verbatim and states facts about
them.  The second part models the three HAL contracts that the index only names
(`Wait`, `InterruptController`, `I2c`), whose bodies are not part of the material.
-/

set_option maxRecDepth 8000

namespace SJSUDev2

/-- One link target of an index entry: `[url, flag, scope]`. -/
structure Target where
  url : String
  flag : Nat
  scope : String
  deriving DecidableEq

/-- One element of `searchData`: `[key, [name, target, target, ...]]`. -/
structure Entry where
  key : String
  name : String
  targets : List Target
  deriving DecidableEq

/-- The `searchData` array of `src/api/html/search/all_15.js`, entry by entry. -/
def all_15.searchData : List Entry :=
  [
  ⟨"wait", "Wait",
    [
      ⟨"../d0/d6b/namespacesjsu.html#a320210b51d2d24ec0b9a5a8009d39f85", 1, "sjsu::Wait(std::chrono::nanoseconds timeout, std::function&lt; bool()&gt; is_done)"⟩,
      ⟨"../d0/d6b/namespacesjsu.html#a5a13b55bdb9bf8aa1ea29726df478dce", 1, "sjsu::Wait(std::chrono::nanoseconds timeout)"⟩
    ]⟩,
  ⟨"waitforinput", "WaitForInput",
    [
      ⟨"../d1/d42/classsjsu_1_1CommandLine.html#a4eaf573a214cc6dd46027c3441ec7ed1", 1, "sjsu::CommandLine"⟩
    ]⟩,
  ⟨"watchdog", "Watchdog",
    [
      ⟨"../d5/da1/classsjsu_1_1Watchdog.html", 1, "sjsu::Watchdog"⟩,
      ⟨"../dc/db6/classsjsu_1_1lpc40xx_1_1Watchdog.html", 1, "sjsu::lpc40xx::Watchdog"⟩
    ]⟩,
  ⟨"width", "width",
    [
      ⟨"../d9/dd3/structsjsu_1_1bit_1_1Mask.html#a60b43d484fc581bcee9771d9c1db4fc9", 1, "sjsu::bit::Mask"⟩
    ]⟩,
  ⟨"wifi", "WiFi",
    [
      ⟨"../dc/d16/classsjsu_1_1WiFi.html", 1, "sjsu"⟩
    ]⟩,
  ⟨"write", "Write",
    [
      ⟨"../da/d01/classsjsu_1_1Dac.html#a3bea0cce099ecc4dea01653b610ee54e", 1, "sjsu::Dac::Write()"⟩,
      ⟨"../d4/d55/classsjsu_1_1Example.html#ae2acaa0a7e949194c4fff62c0e1b334b", 1, "sjsu::Example::Write()"⟩,
      ⟨"../d0/d9b/classsjsu_1_1I2c.html#abc1e5ff50b8585d91cff6c704563b560", 1, "sjsu::I2c::Write(uint8_t address, const uint8_t *receive_buffer, size_t receive_buffer_length, std::chrono::milliseconds timeout=kI2cTimeout) const"⟩,
      ⟨"../d0/d9b/classsjsu_1_1I2c.html#a171418cb987f13760e1c23d7e4356dd6", 1, "sjsu::I2c::Write(uint8_t address, std::initializer_list&lt; uint8_t &gt; transmit, std::chrono::milliseconds timeout=kI2cTimeout) const"⟩,
      ⟨"../d7/dab/classsjsu_1_1lpc40xx_1_1Dac.html#a62b974329eb1e3d634daf15c16adba41", 1, "sjsu::lpc40xx::Dac::Write()"⟩,
      ⟨"../dc/da9/classsjsu_1_1lpc40xx_1_1Eeprom.html#ac1ae63f613f529938b07ee1050f9c662", 1, "sjsu::lpc40xx::Eeprom::Write()"⟩,
      ⟨"../dc/dbb/classsjsu_1_1lpc40xx_1_1Uart.html#a6cf922781ce5454d24ff14a01d3d0916", 1, "sjsu::lpc40xx::Uart::Write()"⟩,
      ⟨"../dc/da6/classsjsu_1_1Storage.html#a99908d2b1ac3cb39213d01b15f80e56e", 1, "sjsu::Storage::Write()"⟩,
      ⟨"../d0/ddc/classsjsu_1_1Uart.html#a018e450d642c39889b8598f80598831f", 1, "sjsu::Uart::Write(const void *data, size_t size) const =0"⟩,
      ⟨"../d0/ddc/classsjsu_1_1Uart.html#ae1dc8a934bc12135d515afb635740b3e", 1, "sjsu::Uart::Write(uint8_t byte) const"⟩,
      ⟨"../d0/ddc/classsjsu_1_1Uart.html#ae4afed47dba2b057c00e04ef55518372", 1, "sjsu::Uart::Write(std::initializer_list&lt; uint8_t &gt; data) const"⟩,
      ⟨"../d7/d23/classsjsu_1_1ExampleHal.html#a735d48c096e8ed6a48a50a986d4cd109", 1, "sjsu::ExampleHal::Write(const uint8_t *data, size_t size)=0"⟩,
      ⟨"../d7/d23/classsjsu_1_1ExampleHal.html#a40e366d3a643c4af81b9b2c8b8d3f2e2", 1, "sjsu::ExampleHal::Write(std::initializer_list&lt; uint8_t &gt; data)"⟩,
      ⟨"../d7/d4f/classsjsu_1_1ExampleHalImplementation.html#a0df78c5e54b7b3172e6d726e5f1e1e09", 1, "sjsu::ExampleHalImplementation::Write()"⟩,
      ⟨"../d7/d1a/classsjsu_1_1ExampleSingleImplementationHal.html#ab0ce6ce1e26afb7c1b119b1cbeffe6e3", 1, "sjsu::ExampleSingleImplementationHal::Write(const uint8_t *data, size_t size)"⟩,
      ⟨"../d7/d1a/classsjsu_1_1ExampleSingleImplementationHal.html#add8d7df383b61f16c34f0a360269a3d1", 1, "sjsu::ExampleSingleImplementationHal::Write(std::initializer_list&lt; uint8_t &gt; data)"⟩,
      ⟨"../d0/d27/classsjsu_1_1ParallelGpio.html#aaf0b953625d5ec2e1b45fae0ae9643da", 1, "sjsu::ParallelGpio::Write()"⟩,
      ⟨"../d7/d86/classsjsu_1_1ParallelBus.html#a49876a0e15e4c71fe1a5e04bfd555364", 1, "sjsu::ParallelBus::Write()"⟩
    ]⟩,
  ⟨"writethenread", "WriteThenRead",
    [
      ⟨"../d0/d9b/classsjsu_1_1I2c.html#aa242585abf86d762eee529c2233dac3b", 1, "sjsu::I2c::WriteThenRead(uint8_t address, const uint8_t *transmit_buffer, size_t transmit_buffer_length, uint8_t *receive_buffer, size_t receive_buffer_length, std::chrono::milliseconds timeout=kI2cTimeout) const"⟩,
      ⟨"../d0/d9b/classsjsu_1_1I2c.html#a525532383da920493bea016891afae18", 1, "sjsu::I2c::WriteThenRead(uint8_t address, std::initializer_list&lt; uint8_t &gt; transmit, uint8_t *receive_buffer, size_t receive_buffer_length, std::chrono::milliseconds timeout=kI2cTimeout) const"⟩
    ]⟩
  ]

/-- The `searchData` array of `src/api/html/search/all_b.js`, entry by entry. -/
def all_b.searchData : List Entry :=
  [
  ⟨"l1_20peripheral_20interfaces", "L1 Peripheral Interfaces",
    [
      ⟨"../d4/da8/group__l1__peripheral.html", 1, ""⟩
    ]⟩,
  ⟨"led0", "led0",
    [
      ⟨"../db/dc0/structsjone.html#a704ef4737a8eb46a379efa76a0b81b79", 1, "sjone::led0()"⟩,
      ⟨"../db/dc5/structsjtwo.html#ac140efcc4ca6c0e256b95e5f479a2235", 1, "sjtwo::led0()"⟩
    ]⟩,
  ⟨"led1", "led1",
    [
      ⟨"../db/dc0/structsjone.html#a6c0ae7a420bb2500167288794614e813", 1, "sjone::led1()"⟩,
      ⟨"../db/dc5/structsjtwo.html#a66601f7e36e302051e04f1fea2f78704", 1, "sjtwo::led1()"⟩
    ]⟩,
  ⟨"led2", "led2",
    [
      ⟨"../db/dc0/structsjone.html#a54f800d2fe06330157f10a969ac4096f", 1, "sjone::led2()"⟩,
      ⟨"../db/dc5/structsjtwo.html#a23fe76dbac7e6d1a48922e5290e39a3b", 1, "sjtwo::led2()"⟩
    ]⟩,
  ⟨"led3", "led3",
    [
      ⟨"../db/dc0/structsjone.html#a1d4b0f49270f2465680fe6a212fd73c5", 1, "sjone::led3()"⟩,
      ⟨"../db/dc5/structsjtwo.html#a3c24bac0fb389fd06a4d633b9dc49580", 1, "sjtwo::led3()"⟩
    ]⟩,
  ⟨"length", "length",
    [
      ⟨"../da/dcd/structsjsu_1_1I2cCommand_1_1Arguments__t.html#aa9eadbdd9f2b1e3f88c6dda26ea11245", 1, "sjsu::I2cCommand::Arguments_t"⟩
    ]⟩,
  ⟨"lightsensor", "LightSensor",
    [
      ⟨"../d7/d75/classsjsu_1_1LightSensor.html", 1, "sjsu::LightSensor"⟩,
      ⟨"../db/dc0/structsjone.html#a7654512cc58dc99404144d8900e67104", 1, "sjone::LightSensor()"⟩
    ]⟩,
  ⟨"list", "List",
    [
      ⟨"../d0/d6b/namespacesjsu.html#a10c5ec2840083cf8985e9c6b3acef2a3", 1, "sjsu"⟩
    ]⟩,
  ⟨"log", "Log",
    [
      ⟨"../d4/d1e/structsjsu_1_1Log.html", 1, "sjsu::Log&lt; Params &gt;"⟩,
      ⟨"../d4/d1e/structsjsu_1_1Log.html#a4c13e11fbe5f5bb9140f786ec7d004b1", 1, "sjsu::Log::Log()"⟩,
      ⟨"../d0/d6b/namespacesjsu.html#a7607f7d0dc5d543e111a331baabf12c0", 1, "sjsu::Log()"⟩
    ]⟩,
  ⟨"log_5fdebug", "LOG_DEBUG",
    [
      ⟨"../de/d7a/group__Log.html#gabd0b0523397fb05f0ed46fc217fb630f", 1, "log.hpp"⟩
    ]⟩,
  ⟨"log_5ferror", "LOG_ERROR",
    [
      ⟨"../de/d7a/group__Log.html#gabffaf9cecb61026cac6db71a16ace9c5", 1, "log.hpp"⟩
    ]⟩,
  ⟨"log_5finfo", "LOG_INFO",
    [
      ⟨"../de/d7a/group__Log.html#ga89681da4efde0b54dc7f2839665082c8", 1, "log.hpp"⟩
    ]⟩,
  ⟨"log_5fwarning", "LOG_WARNING",
    [
      ⟨"../de/d7a/group__Log.html#ga1c60134b1702d179d9b86bc618f416fe", 1, "log.hpp"⟩
    ]⟩,
  ⟨"logdebug", "LogDebug",
    [
      ⟨"../d2/dbb/structsjsu_1_1LogDebug.html", 1, "sjsu::LogDebug&lt; Params &gt;"⟩,
      ⟨"../d2/dbb/structsjsu_1_1LogDebug.html#a984e87956ec9a06bef152692edd5a7ed", 1, "sjsu::LogDebug::LogDebug()"⟩,
      ⟨"../d0/d6b/namespacesjsu.html#ab44f75eb531e1cf14e5b327a1c64f77e", 1, "sjsu::LogDebug()"⟩
    ]⟩,
  ⟨"logerror", "LogError",
    [
      ⟨"../d2/d2c/structsjsu_1_1LogError.html", 1, "sjsu::LogError&lt; Params &gt;"⟩,
      ⟨"../d2/d2c/structsjsu_1_1LogError.html#a85052fbb3e6d7566eb584d5ef83f905c", 1, "sjsu::LogError::LogError()"⟩,
      ⟨"../d0/d6b/namespacesjsu.html#a176db8436ca10f664ea360284a96cb87", 1, "sjsu::LogError()"⟩
    ]⟩,
  ⟨"logic_5fhigh_5fduration", "logic_high_duration",
    [
      ⟨"../de/d0d/structsjsu_1_1infrared_1_1PulseDurationConfiguration__t.html#ad58abf81cb19141f2bbb884028466ee0", 1, "sjsu::infrared::PulseDurationConfiguration_t"⟩
    ]⟩,
  ⟨"logic_5flow_5fduration", "logic_low_duration",
    [
      ⟨"../de/d0d/structsjsu_1_1infrared_1_1PulseDurationConfiguration__t.html#a79c8ab455b690cbc4c3ee2a79c953d05", 1, "sjsu::infrared::PulseDurationConfiguration_t"⟩
    ]⟩,
  ⟨"loginfo", "LogInfo",
    [
      ⟨"../d9/d37/structsjsu_1_1LogInfo.html", 1, "sjsu::LogInfo&lt; Params &gt;"⟩,
      ⟨"../d9/d37/structsjsu_1_1LogInfo.html#a9969f60bcec08085988b056a4fbdefd7", 1, "sjsu::LogInfo::LogInfo()"⟩,
      ⟨"../d0/d6b/namespacesjsu.html#a538872c7676467a657bd5b3a1b7afae8", 1, "sjsu::LogInfo()"⟩
    ]⟩,
  ⟨"logwarning", "LogWarning",
    [
      ⟨"../d1/d18/structsjsu_1_1LogWarning.html", 1, "sjsu::LogWarning&lt; Params &gt;"⟩,
      ⟨"../d1/d18/structsjsu_1_1LogWarning.html#a1f2aef87506ed3c45661f83ea369f2f8", 1, "sjsu::LogWarning::LogWarning()"⟩,
      ⟨"../d0/d6b/namespacesjsu.html#ad971fcd4934a41284bc09920f00c5109", 1, "sjsu::LogWarning()"⟩
    ]⟩,
  ⟨"lookuphandler", "LookupHandler",
    [
      ⟨"../d5/d9a/classsjsu_1_1cortex_1_1InterruptController.html#a45586571af8dbc8f77fa5f8d2237cd46", 1, "sjsu::cortex::InterruptController"⟩
    ]⟩,
  ⟨"ltc4150", "Ltc4150",
    [
      ⟨"../d9/d3a/classsjsu_1_1Ltc4150.html", 1, "sjsu::Ltc4150"⟩,
      ⟨"../d9/d3a/classsjsu_1_1Ltc4150.html#a86eb7f036b14e8c8b552fe9767a4b199", 1, "sjsu::Ltc4150::Ltc4150()"⟩
    ]⟩
  ]
/-! ## Vocabulary for reading the index -/

/-- The search keys of an index, in file order. -/
def keys (d : List Entry) : List String := d.map Entry.key

/-- The entry stored under a search key (the first one, in file order). -/
def lookupKey (d : List Entry) (k : String) : Option Entry := d.find? fun e => e.key = k

/-- Code points of a string; for ASCII text these are its bytes. -/
def codes (s : String) : List Nat := s.toList.map Char.toNat

/-- Strict lexicographic order on sequences of byte values. -/
def lexLt : List Nat → List Nat → Bool
  | [], [] => false
  | [], _ :: _ => true
  | _ :: _, [] => false
  | a :: as, b :: bs => a < b || (a == b && lexLt as bs)

/-- Strict byte-wise order on search keys. -/
def keyLt (a b : String) : Bool := lexLt (codes a) (codes b)

/-- Every element is related to its successor by `r`. -/
def ascending {α : Type} (r : α → α → Bool) : List α → Bool
  | [] => true
  | [_] => true
  | a :: b :: rest => r a b && ascending r (b :: rest)

/-- First character of a string, if any. -/
def firstChar (s : String) : Option Char := s.toList.head?

/-- Lower-case hexadecimal digit of a value below sixteen. -/
def hexDigit (n : Nat) : Char :=
  if n < 10 then Char.ofNat (48 + n) else Char.ofNat (87 + n)

/-- Search-key encoding of one character: ASCII letters and digits are kept in lower
case, any other character becomes `_` followed by its two-digit lower-case hex code. -/
def encodeChar (c : Char) : List Char :=
  if c.isAlphanum then [c.toLower]
  else ['_', hexDigit (c.toNat / 16), hexDigit (c.toNat % 16)]

/-- Search-key encoding of a display name. -/
def encodeName (s : String) : String := String.mk (s.toList.flatMap encodeChar)

/-- Split a character sequence at every occurrence of `sep`. -/
def splitOnChar (sep : Char) (cs : List Char) : List (List Char) :=
  cs.foldr
    (fun c acc =>
      if c = sep then [] :: acc
      else match acc with
        | [] => [[c]]
        | h :: t => (c :: h) :: t)
    [[]]

/-- The part of a scope text in front of its parameter list. -/
def signatureHead (scope : String) : List Char :=
  scope.toList.takeWhile fun c => c ≠ '('

/-- The `::`-separated components of the qualified name in a scope text, for example
`["sjsu", "I2c", "Write"]`. -/
def qualifiers (scope : String) : List String :=
  ((splitOnChar ':' (signatureHead scope)).filter fun p => p ≠ []).map String.mk

/-- The text between the first `(` and the last `)` of a scope text; `none` when the
scope text carries no parameter list. -/
def parameterText (scope : String) : Option (List Char) :=
  match scope.toList.dropWhile fun c => c ≠ '(' with
  | [] => none
  | _ :: body => some ((body.reverse.dropWhile fun c => c ≠ ')').drop 1).reverse

/-- The comma-separated parameters of a scope text, leading blanks removed. -/
def parameters (scope : String) : Option (List String) :=
  (parameterText scope).map fun body =>
    if body = [] then []
    else (splitOnChar ',' body).map fun p => String.mk (p.dropWhile fun c => c = ' ')

/-- A parameter without its default value: the text in front of `=`. -/
def declarator (param : String) : String :=
  String.mk (param.toList.takeWhile fun c => c ≠ '=')

/-- The default value of a parameter: the text behind `=`, if there is one. -/
def defaultValue (param : String) : Option String :=
  match param.toList.dropWhile fun c => c ≠ '=' with
  | [] => none
  | _ :: v => some (String.mk v)

/-- Undo the HTML escaping of `<` and `>` used in the index data. -/
def htmlUnescape : List Char → List Char
  | '&' :: 'l' :: 't' :: ';' :: rest => '<' :: htmlUnescape rest
  | '&' :: 'g' :: 't' :: ';' :: rest => '>' :: htmlUnescape rest
  | c :: rest => c :: htmlUnescape rest
  | [] => []

/-- The entry lists a target whose qualified name is exactly `quals`. -/
def listsMember (e : Entry) (quals : List String) : Bool :=
  e.targets.any fun t => qualifiers t.scope = quals

/-- The last blank-separated word of a parameter's declarator: its name. -/
def parameterName (param : String) : String :=
  String.mk ((declarator param).toList.reverse.takeWhile fun c => c ≠ ' ').reverse

/-- The targets among `ts` that are members of class `sjsu::I2c`. -/
def i2cOverloads (ts : List Target) : List Target :=
  ts.filter fun t => (qualifiers t.scope).take 2 = ["sjsu", "I2c"]

/-- The targets stored under a key, empty when the key is absent. -/
def targetsOf (d : List Entry) (k : String) : List Target :=
  match lookupKey d k with
  | some e => e.targets
  | none => []

/-- Whether the `write` entry of `all_15.js` lists a target `sjsu::<cls>::Write`. -/
def listsWrite (cls : String) : Bool :=
  (targetsOf all_15.searchData "write").any fun t => qualifiers t.scope = ["sjsu", cls, "Write"]

/-- The `sjsu::I2c` targets listed under `write` and under `writethenread`. -/
def i2cTransactions : List Target :=
  i2cOverloads (targetsOf all_15.searchData "write") ++
    i2cOverloads (targetsOf all_15.searchData "writethenread")

/-- The first target of the `writethenread` entry, as it stands in `all_15.js`. -/
def writeThenReadBufferOverload : Target :=
  ⟨"../d0/d9b/classsjsu_1_1I2c.html#aa242585abf86d762eee529c2233dac3b", 1, "sjsu::I2c::WriteThenRead(uint8_t address, const uint8_t *transmit_buffer, size_t transmit_buffer_length, uint8_t *receive_buffer, size_t receive_buffer_length, std::chrono::milliseconds timeout=kI2cTimeout) const"⟩

/-- The entry of `LOG_DEBUG`, as it stands in `all_b.js`. -/
def logDebugEntry : Entry :=
  ⟨"log_5fdebug", "LOG_DEBUG",
    [⟨"../de/d7a/group__Log.html#gabd0b0523397fb05f0ed46fc217fb630f", 1, "log.hpp"⟩]⟩

/-! ## Clock/Timeout utility -/

/-- Outcome of `Wait`. -/
inductive Status where
  | Completed
  | TimedOut
  deriving DecidableEq

/-- Modelled from the spec: the polling loop of `sjsu::Wait(timeout, is_done)`, of which
the index holds only the declaration.  Time is the value of the monotonic tick counter
and `is_done` is read at a tick.  One pass evaluates `is_done` at the current tick `now`;
a true result ends the wait with `Completed`; otherwise an elapsed time `now - start` of
at least `timeout` ends it with `TimedOut`; otherwise the next pass begins `pace now`
ticks later, `pace now` being the duration of the pass begun at `now`.  The predicate is
evaluated before the deadline is looked at, so a zero timeout still evaluates it once.
The result carries the elapsed ticks at return; `none` means the fuel ran out. -/
def Wait.poll (timeout : Nat) (is_done : Nat → Bool) (pace : Nat → Nat) (start : Nat) :
    Nat → Nat → Option (Status × Nat)
  | 0, _ => none
  | fuel + 1, now =>
    if is_done now then some (Status.Completed, now - start)
    else if timeout ≤ now - start then some (Status.TimedOut, now - start)
    else Wait.poll timeout is_done pace start fuel (now + pace now)

/-- Modelled from the spec: `sjsu::Wait(timeout, is_done)` entered at tick `start`; the
body of the function is not part of the material. -/
def Wait (timeout : Nat) (is_done : Nat → Bool) (pace : Nat → Nat) (start fuel : Nat) :
    Option (Status × Nat) :=
  Wait.poll timeout is_done pace start fuel start

/-! ## Interrupt controller -/

/-- Conditions signalled by the interrupt controller. -/
inductive InterruptError where
  | NotFound
  | NoHandlerRegistered
  deriving DecidableEq

/-- Modelled from the spec: the registration table of
`sjsu::cortex::InterruptController`, whose code is not part of the material.  There is
one slot per physical interrupt line, so at most one handler per identifier, and one
mask bit per line. -/
structure InterruptController (Handler : Type) where
  handlers : List (Option Handler)
  enabled : List Bool

namespace InterruptController

variable {Handler : Type}

/-- Modelled from the spec: the table of a controller with `lines` interrupt lines, no
handler registered and every line masked (construction code is not in the material). -/
def create (lines : Nat) : InterruptController Handler :=
  ⟨List.replicate lines none, List.replicate lines false⟩

/-- Number of interrupt lines; the valid identifiers are those below it. -/
def lines (ic : InterruptController Handler) : Nat := ic.handlers.length

/-- Modelled from the spec: `Register(identifier, handler)`, absent from the material,
stores or replaces the handler of `identifier` and leaves the enable state alone; the
table does not grow, so an identifier beyond the last line changes nothing. -/
def Register (ic : InterruptController Handler) (identifier : Nat) (handler : Handler) :
    InterruptController Handler :=
  { ic with handlers := ic.handlers.set identifier (some handler) }

/-- Modelled from the spec: `LookupHandler(identifier) -> handler | NotFound`, of which
the index holds only the member name. -/
def LookupHandler (ic : InterruptController Handler) (identifier : Nat) :
    Except InterruptError Handler :=
  match ic.handlers[identifier]? with
  | some (some handler) => Except.ok handler
  | _ => Except.error InterruptError.NotFound

/-- Modelled from the spec: `Enable(identifier)`, absent from the material, sets the
mask bit of the line and signals `NoHandlerRegistered` when no handler is registered. -/
def Enable (ic : InterruptController Handler) (identifier : Nat) :
    Except InterruptError (InterruptController Handler) :=
  match ic.LookupHandler identifier with
  | Except.ok _ => Except.ok { ic with enabled := ic.enabled.set identifier true }
  | Except.error _ => Except.error InterruptError.NoHandlerRegistered

/-- Modelled from the spec: `Disable(identifier)`, absent from the material, clears the
mask bit of the line. -/
def Disable (ic : InterruptController Handler) (identifier : Nat) :
    InterruptController Handler :=
  { ic with enabled := ic.enabled.set identifier false }

/-- One call made on the controller by a driver. -/
inductive Call (Handler : Type) where
  | register (identifier : Nat) (handler : Handler)
  | enable (identifier : Nat)
  | disable (identifier : Nat)

/-- The controller after one call; a call that signals an error leaves it unchanged. -/
def step (ic : InterruptController Handler) : Call Handler → InterruptController Handler
  | Call.register identifier handler => ic.Register identifier handler
  | Call.enable identifier =>
    match ic.Enable identifier with
    | Except.ok ic' => ic'
    | Except.error _ => ic
  | Call.disable identifier => ic.Disable identifier

/-- The controller after a sequence of calls, first call first. -/
def run (ic : InterruptController Handler) (calls : List (Call Handler)) :
    InterruptController Handler :=
  calls.foldl step ic

end InterruptController

/-! ## Bus transaction engine -/

/-- Transfer direction announced in the address phase. -/
inductive Direction where
  | write
  | read
  deriving DecidableEq

/-- Observable bus phases, as recorded by a phase-trace double. -/
inductive Phase where
  | Start
  | AddressPhase (address : Nat) (direction : Direction)
  | WritePhase (byte : Nat)
  | RestartPhase
  | ReadPhase (byte : Nat) (acknowledged : Bool)
  | Stop
  deriving DecidableEq

/-- Reasons for which a bus transaction fails (§7). -/
inductive Failure where
  | AddressNack
  | DataNack
  | Timeout
  | CapacityExceeded
  deriving DecidableEq

/-- Final state of a bus transaction. -/
inductive Outcome where
  | Complete
  | Failed (reason : Failure)
  deriving DecidableEq

/-- Modelled from the spec: the phase-trace double of the bus used to observe
transactions (§8), standing for the absent hardware.  `supply k` is the byte the target
sends as the `k`-th byte of a read phase, `acknowledges phase` the target's answer to an
address or write phase, `delay phase` the ticks the phase takes (clock stretching
included) and `trace` the phases seen so far. -/
structure BusDouble where
  supply : Nat → Nat
  acknowledges : Phase → Bool
  delay : Phase → Nat
  trace : List Phase

/-- The double before any transaction. -/
def BusDouble.fresh (supply : Nat → Nat) (acknowledges : Phase → Bool)
    (delay : Phase → Nat) : BusDouble :=
  ⟨supply, acknowledges, delay, []⟩

/-- The double after seeing further phases. -/
def BusDouble.record (bus : BusDouble) (phases : List Phase) : BusDouble :=
  { bus with trace := bus.trace ++ phases }

/-- What a transaction with a receive buffer leaves behind. -/
structure Transfer where
  bus : BusDouble
  outcome : Outcome
  receive_buffer : List Nat

namespace I2c

/-- Phases that the target has to acknowledge: the address and every written byte. -/
def expectsAck : Phase → Bool
  | Phase.AddressPhase _ _ => true
  | Phase.WritePhase _ => true
  | _ => false

/-- Failure reported when a phase is not acknowledged. -/
def nackReason : Phase → Failure
  | Phase.AddressPhase _ _ => Failure.AddressNack
  | _ => Failure.DataNack

/-- Modelled from the spec: the transaction executor of §4.3, whose code is not part of
the material.  The planned phases are entered in order.  A phase that takes longer than
what is left of the single time budget ends the transaction with `Timeout`; an address
or written byte that is not acknowledged ends it with `AddressNack` or `DataNack`;
otherwise the phase's duration is taken off the budget and the next phase follows.
Every transaction, failed or not, ends with Stop.  The result is the phases seen on the
bus and the outcome. -/
def transact (acknowledges : Phase → Bool) (delay : Phase → Nat) :
    Nat → List Phase → List Phase × Outcome
  | _, [] => ([Phase.Stop], Outcome.Complete)
  | budget, phase :: rest =>
    if budget < delay phase then
      ([phase, Phase.Stop], Outcome.Failed Failure.Timeout)
    else if expectsAck phase && !acknowledges phase then
      ([phase, Phase.Stop], Outcome.Failed (nackReason phase))
    else
      (phase :: (transact acknowledges delay (budget - delay phase) rest).1,
        (transact acknowledges delay (budget - delay phase) rest).2)

/-- Modelled from the spec: the write phase transmits every byte of the buffer in order,
none for an empty buffer (the transfer code of `sjsu::I2c` is not in the material). -/
def writePhases (buffer : List Nat) : List Phase := buffer.map Phase.WritePhase

/-- Modelled from the spec: the read phase fills `length` bytes; every byte is
acknowledged except the last, which is answered by a NACK (the transfer code of
`sjsu::I2c` is not in the material). -/
def readPhases (supply : Nat → Nat) (length : Nat) : List Phase :=
  (List.range length).map fun k => Phase.ReadPhase (supply k) (decide (k + 1 < length))

/-- Modelled from the spec: the receive buffer after a completed read of `length` bytes;
positions beyond `length` keep their content (the transfer code is not in the
material). -/
def filled (supply : Nat → Nat) (receive_buffer : List Nat) (length : Nat) : List Nat :=
  (List.range length).map supply ++ receive_buffer.drop length

/-- Modelled from the spec: `I2c::Write(address, buffer, timeout)`: Start, address with
the write bit, the write phase, Stop; fails with `AddressNack`, `DataNack` or `Timeout`.
The index holds only the declaration. -/
def Write (bus : BusDouble) (address : Nat) (buffer : List Nat) (timeout : Nat) :
    BusDouble × Outcome :=
  (bus.record
      (transact bus.acknowledges bus.delay timeout
        ([Phase.Start, Phase.AddressPhase address Direction.write] ++ writePhases buffer)).1,
    (transact bus.acknowledges bus.delay timeout
      ([Phase.Start, Phase.AddressPhase address Direction.write] ++ writePhases buffer)).2)

/-- Modelled from the spec: `I2c::Read(address, receive_buffer, length, timeout)`: Start,
address with the read bit, the read phase, Stop.  A buffer shorter than `length` fails
with `CapacityExceeded` before the bus is touched; a failed read leaves the buffer
unchanged.  The function is absent from the material. -/
def Read (bus : BusDouble) (address : Nat) (receive_buffer : List Nat)
    (length timeout : Nat) : Transfer :=
  if receive_buffer.length < length then
    ⟨bus, Outcome.Failed Failure.CapacityExceeded, receive_buffer⟩
  else
    ⟨bus.record
        (transact bus.acknowledges bus.delay timeout
          ([Phase.Start, Phase.AddressPhase address Direction.read] ++
            readPhases bus.supply length)).1,
      (transact bus.acknowledges bus.delay timeout
        ([Phase.Start, Phase.AddressPhase address Direction.read] ++
          readPhases bus.supply length)).2,
      if (transact bus.acknowledges bus.delay timeout
          ([Phase.Start, Phase.AddressPhase address Direction.read] ++
            readPhases bus.supply length)).2 = Outcome.Complete
      then filled bus.supply receive_buffer length else receive_buffer⟩

/-- Modelled from the spec: `I2c::WriteThenRead(address, transmit_buffer, receive_buffer,
length, timeout)`: the address and write phases of `Write`, a restart, the address and
read phases of `Read`, one Start in front and one Stop at the end, all under the one
timeout; failures as for `Write` and `Read`.  The index holds only the declaration. -/
def WriteThenRead (bus : BusDouble) (address : Nat) (transmit receive_buffer : List Nat)
    (length timeout : Nat) : Transfer :=
  if receive_buffer.length < length then
    ⟨bus, Outcome.Failed Failure.CapacityExceeded, receive_buffer⟩
  else
    ⟨bus.record
        (transact bus.acknowledges bus.delay timeout
          ([Phase.Start, Phase.AddressPhase address Direction.write] ++
            writePhases transmit ++
            [Phase.RestartPhase, Phase.AddressPhase address Direction.read] ++
            readPhases bus.supply length)).1,
      (transact bus.acknowledges bus.delay timeout
        ([Phase.Start, Phase.AddressPhase address Direction.write] ++
          writePhases transmit ++
          [Phase.RestartPhase, Phase.AddressPhase address Direction.read] ++
          readPhases bus.supply length)).2,
      if (transact bus.acknowledges bus.delay timeout
          ([Phase.Start, Phase.AddressPhase address Direction.write] ++
            writePhases transmit ++
            [Phase.RestartPhase, Phase.AddressPhase address Direction.read] ++
            readPhases bus.supply length)).2 = Outcome.Complete
      then filled bus.supply receive_buffer length else receive_buffer⟩

end I2c

/-- Replace every Stop that is directly followed by a Start by a single restart. -/
def fuseRestart : List Phase → List Phase
  | Phase.Stop :: Phase.Start :: rest => Phase.RestartPhase :: fuseRestart rest
  | phase :: rest => phase :: fuseRestart rest
  | [] => []

/-- Total duration of a sequence of phases. -/
def phaseCost (delay : Phase → Nat) (phases : List Phase) : Nat :=
  (phases.map delay).sum

/-- A double whose target answers no address and no byte; phases take no time. -/
def silentBus : BusDouble :=
  BusDouble.fresh (fun _ => 0) (fun _ => false) (fun _ => 0)

/-- A double whose target acknowledges everything and sends the bytes 100, 101, ...;
every phase takes one tick. -/
def steadyBus : BusDouble :=
  BusDouble.fresh (fun k => 100 + k) (fun _ => true) (fun _ => 1)

/-- A double whose target acknowledges everything but holds every phase for six ticks. -/
def stalledBus : BusDouble :=
  BusDouble.fresh (fun k => 100 + k) (fun _ => true) (fun _ => 6)

/-! ## Facts about the index data -/

/-- Claim C6: the index holds exactly one entry named `Wait`, under key `wait`; it lists
exactly two targets, both the function `sjsu::Wait`; the first takes a timeout and
`std::function&lt; bool()&gt; is_done` (the HTML-escaped `std::function< bool()> is_done`),
the second takes only a timeout; the first parameter of both is
`std::chrono::nanoseconds timeout`. -/
theorem wait_entry_lists_two_overloads :
    (((all_15.searchData ++ all_b.searchData).filter fun e => e.name = "Wait").map Entry.key
        = ["wait"]) ∧
    ((targetsOf all_15.searchData "wait").map (fun t => qualifiers t.scope)
        = [["sjsu", "Wait"], ["sjsu", "Wait"]]) ∧
    ((targetsOf all_15.searchData "wait").map (fun t => parameters t.scope)
        = [some ["std::chrono::nanoseconds timeout", "std::function&lt; bool()&gt; is_done"],
           some ["std::chrono::nanoseconds timeout"]]) ∧
    ((targetsOf all_15.searchData "wait").map (fun t => (parameters t.scope).bind List.head?)
        = [some "std::chrono::nanoseconds timeout", some "std::chrono::nanoseconds timeout"]) ∧
    (String.mk (htmlUnescape "std::function&lt; bool()&gt; is_done".toList)
        = "std::function< bool()> is_done") := by
  decide

/-- Claim C7 as stated fails: the `write` entry lists no `sjsu::Gpio::Write`, so not all
four of Dac, Uart, ParallelBus and Gpio have a `Write` target there. -/
theorem gpio_write_not_listed :
    listsWrite "Gpio" = false ∧
    ¬ (∀ cls ∈ ["Dac", "Uart", "ParallelBus", "Gpio"], listsWrite cls = true) := by
  decide

/-- Claim C7, amended: each of Dac, Uart and ParallelBus (in namespace `sjsu`) has a
`Write` member among the targets of the `write` entry; no target of that entry belongs
to a class named `Gpio`, the class listed there is `sjsu::ParallelGpio`. -/
theorem write_entry_lists_dac_uart_parallelbus :
    (∀ cls ∈ ["Dac", "Uart", "ParallelBus"], listsWrite cls = true) ∧
    (∀ t ∈ targetsOf all_15.searchData "write", "Gpio" ∉ qualifiers t.scope) ∧
    listsWrite "ParallelGpio" = true := by
  decide

/-- Instance at the class `Uart`. -/
theorem write_entry_lists_uart :
    "Uart" ∈ ["Dac", "Uart", "ParallelBus"] ∧ listsWrite "Uart" = true :=
  ⟨by decide, write_entry_lists_dac_uart_parallelbus.1 "Uart" (by decide)⟩

/-- Claim C8: the index lists two `sjsu::I2c` overloads under `write` and two under
`writethenread`; each of the four has `uint8_t address` as its first parameter and
`std::chrono::milliseconds timeout` (with default `kI2cTimeout`) as its last, and no
other parameter named `timeout`. -/
theorem i2c_overloads_address_first_timeout_last :
    (i2cOverloads (targetsOf all_15.searchData "write")).length = 2 ∧
    (i2cOverloads (targetsOf all_15.searchData "writethenread")).length = 2 ∧
    ∀ t ∈ i2cTransactions,
      (parameters t.scope).bind List.head? = some "uint8_t address" ∧
      ((parameters t.scope).bind List.getLast?).map declarator
        = some "std::chrono::milliseconds timeout" ∧
      ((parameters t.scope).bind List.getLast?).bind defaultValue = some "kI2cTimeout" ∧
      (parameters t.scope).map (fun ps => (ps.filter fun p => parameterName p = "timeout").length)
        = some 1 := by
  decide

/-- Instance at the buffer overload of
`I2c::WriteThenRead`. -/
theorem i2c_writethenread_buffer_overload :
    writeThenReadBufferOverload ∈ i2cTransactions ∧
    (parameters writeThenReadBufferOverload.scope).bind List.head? = some "uint8_t address" ∧
    ((parameters writeThenReadBufferOverload.scope).bind List.getLast?).map declarator
      = some "std::chrono::milliseconds timeout" :=
  have h := i2c_overloads_address_first_timeout_last.2.2 writeThenReadBufferOverload (by decide)
  ⟨by decide, h.1, h.2.1⟩

/-- Claim C9: in each index file the search keys are strictly ascending in byte-wise
lexicographic order (all key characters are ASCII), hence pairwise distinct; every key
of `all_15.js` starts with `w` and every key of `all_b.js` starts with `l`. -/
theorem searchData_keys_strictly_ascending :
    (keys all_15.searchData).Pairwise (fun a b => keyLt a b = true) ∧
    (keys all_b.searchData).Pairwise (fun a b => keyLt a b = true) ∧
    (keys all_15.searchData).Nodup ∧
    (keys all_b.searchData).Nodup ∧
    (∀ k ∈ keys all_15.searchData ++ keys all_b.searchData, ∀ c ∈ codes k, c < 128) ∧
    (∀ k ∈ keys all_15.searchData, firstChar k = some 'w') ∧
    (∀ k ∈ keys all_b.searchData, firstChar k = some 'l') := by
  decide

/-- Instance at the key `lookuphandler`. -/
theorem lookuphandler_key_starts_with_l :
    "lookuphandler" ∈ keys all_b.searchData ∧ firstChar "lookuphandler" = some 'l' :=
  ⟨by decide, searchData_keys_strictly_ascending.2.2.2.2.2.2 "lookuphandler" (by decide)⟩

/-- Claim C10: for every entry of both index files the key is the encoding of the name:
lower-cased, with every character that is not an ASCII letter or digit replaced by `_`
and its two-digit lower-case hex code; in particular `L1 Peripheral Interfaces` gives
`l1_20peripheral_20interfaces` and `LOG_DEBUG` gives `log_5fdebug`. -/
theorem searchData_key_encodes_name :
    (∀ e ∈ all_15.searchData ++ all_b.searchData, e.key = encodeName e.name) ∧
    encodeName "L1 Peripheral Interfaces" = "l1_20peripheral_20interfaces" ∧
    encodeName "LOG_DEBUG" = "log_5fdebug" := by
  decide

/-- Instance at the entry of `LOG_DEBUG`. -/
theorem log_debug_key_encodes_name :
    logDebugEntry ∈ all_15.searchData ++ all_b.searchData ∧
    logDebugEntry.key = encodeName logDebugEntry.name :=
  ⟨by decide, searchData_key_encodes_name.1 logDebugEntry (by decide)⟩

/-! ## Properties of the modelled contracts -/

/-- The polling loop with a never-true predicate: once the fuel covers the ticks still
missing to the deadline, it ends with `TimedOut`, not before the deadline. -/
theorem Wait.poll_times_out (timeout : Nat) (is_done : Nat → Bool) (pace : Nat → Nat)
    (start : Nat) (hnever : ∀ t, is_done t = false) (hclock : ∀ t, 0 < pace t) :
    ∀ fuel now, start ≤ now → timeout ≤ fuel + (now - start) →
      ∃ elapsed, Wait.poll timeout is_done pace start (fuel + 1) now
          = some (Status.TimedOut, elapsed) ∧ timeout ≤ elapsed := by
  intro fuel
  induction fuel with
  | zero =>
    intro now _ hfuel
    refine ⟨now - start, ?_, by omega⟩
    have hle : timeout ≤ now - start := by omega
    simp [Wait.poll, hnever, hle]
  | succ fuel ih =>
    intro now hnow hfuel
    by_cases hle : timeout ≤ now - start
    · exact ⟨now - start, by simp [Wait.poll, hnever, hle], hle⟩
    · have hp := hclock now
      obtain ⟨elapsed, hres, hel⟩ := ih (now + pace now) (by omega) (by omega)
      refine ⟨elapsed, ?_, hel⟩
      rw [Wait.poll]
      simp only [hnever, hle]
      simpa using hres

/-- The polling loop with a predicate that is true from tick `ready` on: started no later
than one pass after the deadline and with fuel to reach `ready`, it ends with
`Completed` within the timeout plus one pass. -/
theorem Wait.poll_completes (timeout : Nat) (is_done : Nat → Bool) (pace : Nat → Nat)
    (start overhead ready : Nat) (hready : ready ≤ start + timeout)
    (hstays : ∀ t, ready ≤ t → is_done t = true)
    (hclock : ∀ t, 0 < pace t) (hpace : ∀ t, pace t ≤ overhead) :
    ∀ fuel now, start ≤ now → now - start ≤ timeout + overhead → ready ≤ now + fuel →
      ∃ elapsed, Wait.poll timeout is_done pace start (fuel + 1) now
          = some (Status.Completed, elapsed) ∧ elapsed ≤ timeout + overhead := by
  intro fuel
  induction fuel with
  | zero =>
    intro now _ hbound hfuel
    exact ⟨now - start, by simp [Wait.poll, hstays now (by omega)], hbound⟩
  | succ fuel ih =>
    intro now hnow hbound hfuel
    cases hd : is_done now with
    | true => exact ⟨now - start, by simp [Wait.poll, hd], hbound⟩
    | false =>
      have hlt : now < ready := by
        by_contra hge
        have := hstays now (by omega)
        simp [hd] at this
      have hp := hclock now
      have ho := hpace now
      have hnot : ¬ timeout ≤ now - start := by omega
      obtain ⟨elapsed, hres, hel⟩ := ih (now + pace now) (by omega) (by omega) (by omega)
      refine ⟨elapsed, ?_, hel⟩
      rw [Wait.poll]
      simp only [hd, hnot]
      simpa using hres

/-- Claim C1: for every timeout and every predicate that never returns true, `Wait`
returns `TimedOut`, and the elapsed time at return is at least the timeout (given a
clock that advances with every pass and fuel for `timeout + 1` passes). -/
theorem Wait_never_done_returns_TimedOut (timeout : Nat) (is_done : Nat → Bool)
    (pace : Nat → Nat) (start fuel : Nat)
    (hnever : ∀ t, is_done t = false) (hclock : ∀ t, 0 < pace t) (hfuel : timeout < fuel) :
    ∃ elapsed, Wait timeout is_done pace start fuel = some (Status.TimedOut, elapsed) ∧
      timeout ≤ elapsed := by
  obtain ⟨f, rfl⟩ : ∃ f, fuel = f + 1 := ⟨fuel - 1, by omega⟩
  exact Wait.poll_times_out timeout is_done pace start hnever hclock f start (le_refl _)
    (by omega)

/-- Instance: timeout 3, passes of 2 ticks. -/
theorem Wait_never_done_example :
    Wait 3 (fun _ => false) (fun _ => 2) 10 4 = some (Status.TimedOut, 4) ∧
    ∃ elapsed, Wait 3 (fun _ => false) (fun _ => 2) 10 4 = some (Status.TimedOut, elapsed) ∧
      3 ≤ elapsed :=
  ⟨by decide,
    Wait_never_done_returns_TimedOut 3 (fun _ => false) (fun _ => 2) 10 4
      (fun _ => rfl) (fun _ => Nat.succ_pos 1) (by decide)⟩

/-- Claim C2: for every timeout and every predicate that becomes true within the
timeout (true from some tick `ready ≤ start + timeout` on), `Wait` returns `Completed`
with elapsed time at most the timeout plus the duration of one pass (given a clock that
advances with every pass, passes of at most `overhead` ticks and fuel for `timeout + 1`
passes). -/
theorem Wait_done_in_time_returns_Completed (timeout : Nat) (is_done : Nat → Bool)
    (pace : Nat → Nat) (start fuel overhead ready : Nat)
    (hready : ready ≤ start + timeout) (hstays : ∀ t, ready ≤ t → is_done t = true)
    (hclock : ∀ t, 0 < pace t) (hpace : ∀ t, pace t ≤ overhead) (hfuel : timeout < fuel) :
    ∃ elapsed, Wait timeout is_done pace start fuel = some (Status.Completed, elapsed) ∧
      elapsed ≤ timeout + overhead := by
  obtain ⟨f, rfl⟩ : ∃ f, fuel = f + 1 := ⟨fuel - 1, by omega⟩
  exact Wait.poll_completes timeout is_done pace start overhead ready hready hstays hclock
    hpace f start (le_refl _) (by omega) (by omega)

/-- Instance: timeout 5 entered at tick 10, the
predicate true from tick 15 on, passes of 3 ticks; the wait completes after 6 ticks. -/
theorem Wait_done_in_time_example :
    Wait 5 (fun t => decide (15 ≤ t)) (fun _ => 3) 10 6 = some (Status.Completed, 6) ∧
    ∃ elapsed, Wait 5 (fun t => decide (15 ≤ t)) (fun _ => 3) 10 6
        = some (Status.Completed, elapsed) ∧ elapsed ≤ 5 + 3 :=
  ⟨by decide,
    Wait_done_in_time_returns_Completed 5 (fun t => decide (15 ≤ t)) (fun _ => 3) 10 6 3 15
      (by decide) (fun t ht => by simpa using ht) (fun _ => Nat.succ_pos 2)
      (fun _ => Nat.le_refl 3) (by decide)⟩

namespace InterruptController

variable {Handler : Type}

/-- A new controller has no handler for any identifier. -/
theorem LookupHandler_create (lines identifier : Nat) :
    (create lines : InterruptController Handler).LookupHandler identifier
      = Except.error InterruptError.NotFound := by
  unfold LookupHandler create
  by_cases h : identifier < lines <;> simp [List.getElem?_replicate, h]

/-- A call other than a registration of `identifier` leaves its slot as it was. -/
theorem handlers_step_of_ne (ic : InterruptController Handler) (call : Call Handler)
    (identifier : Nat) (hne : ∀ handler, call ≠ Call.register identifier handler) :
    (ic.step call).handlers[identifier]? = ic.handlers[identifier]? := by
  cases call with
  | register j handler =>
    have hj : j ≠ identifier := fun h => hne handler (by rw [h])
    simp [step, Register, List.getElem?_set_ne hj]
  | enable j =>
    simp only [step, Enable]
    cases ic.LookupHandler j <;> rfl
  | disable j => rfl

/-- Calls that never register `identifier` do not change what `LookupHandler` returns
for it. -/
theorem LookupHandler_run_of_never_registered (identifier : Nat) (calls : List (Call Handler)) :
    ∀ ic : InterruptController Handler,
      (∀ handler, Call.register identifier handler ∉ calls) →
      (ic.run calls).LookupHandler identifier = ic.LookupHandler identifier := by
  induction calls with
  | nil => intro ic _; rfl
  | cons call rest ih =>
    intro ic hnever
    have hrest : ∀ handler, Call.register identifier handler ∉ rest :=
      fun handler hmem => hnever handler (List.mem_cons_of_mem _ hmem)
    have hcall : ∀ handler, call ≠ Call.register identifier handler :=
      fun handler heq => hnever handler (by rw [heq]; exact List.mem_cons_self _ _)
    have hstep := handlers_step_of_ne ic call identifier hcall
    show ((ic.step call).run rest).LookupHandler identifier = _
    rw [ih (ic.step call) hrest]
    unfold LookupHandler
    rw [hstep]

end InterruptController

/-- Claim C3: for every valid interrupt identifier and handlers `h1`, `h2`, registering
`h1` and then `h2` under the identifier makes `LookupHandler` yield `h2`; the table
keeps one slot per line and the enable state is untouched. -/
theorem Register_twice_LookupHandler_yields_last {Handler : Type}
    (ic : InterruptController Handler) (identifier : Nat) (h1 h2 : Handler)
    (hvalid : identifier < ic.lines) :
    ((ic.Register identifier h1).Register identifier h2).LookupHandler identifier
      = Except.ok h2 ∧
    ((ic.Register identifier h1).Register identifier h2).lines = ic.lines ∧
    ((ic.Register identifier h1).Register identifier h2).enabled = ic.enabled := by
  have hlen : identifier < ic.handlers.length := hvalid
  refine ⟨?_, ?_, rfl⟩
  · simp [InterruptController.LookupHandler, InterruptController.Register, hlen]
  · simp [InterruptController.lines, InterruptController.Register]

/-- Instance: line 17 of 32 lines. -/
theorem Register_twice_line_17 :
    17 < (InterruptController.create 32 : InterruptController String).lines ∧
    (((InterruptController.create 32 : InterruptController String).Register 17
        "first").Register 17 "second").LookupHandler 17 = Except.ok "second" :=
  ⟨by decide,
    (Register_twice_LookupHandler_yields_last
      (InterruptController.create 32 : InterruptController String) 17 "first" "second"
      (by decide)).1⟩

/-- Claim C4: for every interrupt identifier that was never registered, whatever other
calls were made on a controller since its creation, `LookupHandler` returns
`NotFound`. -/
theorem LookupHandler_never_registered_NotFound {Handler : Type} (lines identifier : Nat)
    (calls : List (InterruptController.Call Handler))
    (hnever : ∀ handler, InterruptController.Call.register identifier handler ∉ calls) :
    ((InterruptController.create lines).run calls).LookupHandler identifier
      = Except.error InterruptError.NotFound := by
  rw [InterruptController.LookupHandler_run_of_never_registered identifier calls _ hnever]
  exact InterruptController.LookupHandler_create lines identifier

/-- Instance: line 17 stays unregistered
while lines 3 and 18 are registered and lines 3 and 17 are enabled or disabled. -/
theorem LookupHandler_line_17_NotFound :
    ((InterruptController.create 32 : InterruptController String).run
        [InterruptController.Call.register 3 "uart", InterruptController.Call.enable 3,
         InterruptController.Call.enable 17, InterruptController.Call.disable 3,
         InterruptController.Call.register 18 "i2c"]).LookupHandler 17
      = Except.error InterruptError.NotFound :=
  LookupHandler_never_registered_NotFound 32 17
    [InterruptController.Call.register 3 "uart", InterruptController.Call.enable 3,
     InterruptController.Call.enable 17, InterruptController.Call.disable 3,
     InterruptController.Call.register 18 "i2c"]
    (by intro handler; simp)

/-- Phases without a Stop pass through `fuseRestart` unchanged. -/
theorem fuseRestart_append_of_no_Stop (phases rest : List Phase)
    (hno : Phase.Stop ∉ phases) :
    fuseRestart (phases ++ rest) = phases ++ fuseRestart rest := by
  induction phases with
  | nil => rfl
  | cons phase tail ih =>
    have htail : Phase.Stop ∉ tail := fun h => hno (List.mem_cons_of_mem _ h)
    have hhead : phase ≠ Phase.Stop := fun h => hno (by rw [h]; exact List.mem_cons_self _ _)
    cases phase with
    | Stop => exact absurd rfl hhead
    | Start => simp [fuseRestart, ih htail]
    | AddressPhase a d => simp [fuseRestart, ih htail]
    | WritePhase b => simp [fuseRestart, ih htail]
    | RestartPhase => simp [fuseRestart, ih htail]
    | ReadPhase b k => simp [fuseRestart, ih htail]

/-- A trace without a Start has nothing for `fuseRestart` to replace. -/
theorem fuseRestart_of_no_Start (phases : List Phase) (hno : Phase.Start ∉ phases) :
    fuseRestart phases = phases := by
  induction phases with
  | nil => rfl
  | cons phase tail ih =>
    have htail : Phase.Start ∉ tail := fun h => hno (List.mem_cons_of_mem _ h)
    cases phase with
    | Stop =>
      cases tail with
      | nil => rfl
      | cons next more =>
        have hnext : next ≠ Phase.Start :=
          fun h => htail (by rw [h]; exact List.mem_cons_self _ _)
        have := ih htail
        cases next <;> simp_all [fuseRestart]
    | Start => exact absurd (List.mem_cons_self _ _) hno
    | AddressPhase a d => simp [fuseRestart, ih htail]
    | WritePhase b => simp [fuseRestart, ih htail]
    | RestartPhase => simp [fuseRestart, ih htail]
    | ReadPhase b k => simp [fuseRestart, ih htail]

/-- The write phase holds no Stop. -/
theorem I2c.Stop_not_mem_writePhases (buffer : List Nat) :
    Phase.Stop ∉ I2c.writePhases buffer := by
  simp [I2c.writePhases]

/-- The read phase holds no Start. -/
theorem I2c.Start_not_mem_readPhases (supply : Nat → Nat) (length : Nat) :
    Phase.Start ∉ I2c.readPhases supply length := by
  simp [I2c.readPhases]

/-- A plan without a Start leaves no Start on the bus. -/
theorem I2c.Start_not_mem_transact (acknowledges : Phase → Bool) (delay : Phase → Nat)
    (plan : List Phase) (hno : Phase.Start ∉ plan) :
    ∀ budget, Phase.Start ∉ (I2c.transact acknowledges delay budget plan).1 := by
  induction plan with
  | nil => intro budget; simp [I2c.transact]
  | cons phase rest ih =>
    intro budget
    have hrest : Phase.Start ∉ rest := fun h => hno (List.mem_cons_of_mem _ h)
    have hhead : Phase.Start ≠ phase := fun h => hno (by rw [h]; exact List.mem_cons_self _ _)
    have hrec := ih hrest (budget - delay phase)
    unfold I2c.transact
    split
    · simp [hhead]
    · split
      · simp [hhead]
      · simp [hhead, hrec]

/-- A completed plan was seen in full, fitted the budget, and any plan that continues it
goes on from there with the budget that is left. -/
theorem I2c.transact_append_of_Complete (acknowledges : Phase → Bool)
    (delay : Phase → Nat) (plan more : List Phase) :
    ∀ budget, (I2c.transact acknowledges delay budget plan).2 = Outcome.Complete →
      (I2c.transact acknowledges delay budget plan).1 = plan ++ [Phase.Stop] ∧
      phaseCost delay plan ≤ budget ∧
      I2c.transact acknowledges delay budget (plan ++ more)
        = (plan ++ (I2c.transact acknowledges delay (budget - phaseCost delay plan) more).1,
            (I2c.transact acknowledges delay (budget - phaseCost delay plan) more).2) := by
  induction plan with
  | nil => intro budget _; simp [I2c.transact, phaseCost]
  | cons phase rest ih =>
    intro budget hdone
    unfold I2c.transact at hdone
    by_cases hlate : budget < delay phase
    · simp [hlate] at hdone
    · by_cases hnack : (I2c.expectsAck phase && !acknowledges phase) = true
      · simp [hlate, hnack] at hdone
      · simp only [hlate, hnack, if_false] at hdone
        obtain ⟨htrace, hcost, happ⟩ := ih (budget - delay phase) hdone
        have hsum : phaseCost delay (phase :: rest) = delay phase + phaseCost delay rest := by
          simp [phaseCost]
        refine ⟨?_, ?_, ?_⟩
        · rw [I2c.transact]; simp only [hlate, hnack, if_false]; rw [htrace]; rfl
        · rw [hsum]; omega
        · rw [List.cons_append, I2c.transact]
          simp only [hlate, hnack, if_false]
          rw [happ, hsum, Nat.sub_sub]
          rfl

/-- A transaction that does not time out runs the same way under any larger budget. -/
theorem I2c.transact_budget_mono (acknowledges : Phase → Bool) (delay : Phase → Nat)
    (plan : List Phase) :
    ∀ budget larger, budget ≤ larger →
      (I2c.transact acknowledges delay budget plan).2 ≠ Outcome.Failed Failure.Timeout →
      I2c.transact acknowledges delay larger plan
        = I2c.transact acknowledges delay budget plan := by
  induction plan with
  | nil => intro budget larger _ _; rfl
  | cons phase rest ih =>
    intro budget larger hle hnot
    unfold I2c.transact at hnot ⊢
    by_cases hlate : budget < delay phase
    · simp [hlate] at hnot
    · have hlate' : ¬ larger < delay phase := by omega
      by_cases hnack : (I2c.expectsAck phase && !acknowledges phase) = true
      · simp [hlate, hlate', hnack]
      · simp only [hlate, hnack, if_false] at hnot
        simp only [hlate, hlate', hnack, if_false]
        rw [ih (budget - delay phase) (larger - delay phase) (by omega) hnot]

/-- The transaction model on the scenarios of §8: a write of an empty buffer is Start,
address, Stop; an address NACK on `Write(0x50, [1, 2], 10)` gives `AddressNack` with no
byte transmitted; `Read(0x50, buf[4], 4, 5)` on a target stalling for six ticks gives
`Timeout` and leaves the buffer unchanged. -/
theorem I2c.scenarios :
    (I2c.Write steadyBus 80 [] 10).1.trace
      = [Phase.Start, Phase.AddressPhase 80 Direction.write, Phase.Stop] ∧
    (I2c.Write steadyBus 80 [] 10).2 = Outcome.Complete ∧
    (I2c.Write silentBus 80 [1, 2] 10).1.trace
      = [Phase.Start, Phase.AddressPhase 80 Direction.write, Phase.Stop] ∧
    (I2c.Write silentBus 80 [1, 2] 10).2 = Outcome.Failed Failure.AddressNack ∧
    (I2c.Read stalledBus 80 [5, 6, 7, 8] 4 5).outcome = Outcome.Failed Failure.Timeout ∧
    (I2c.Read stalledBus 80 [5, 6, 7, 8] 4 5).receive_buffer = [5, 6, 7, 8] := by
  decide

/-- When the write plan completes and the combined plan does not time out, the read half
of the combined plan runs exactly as the read plan does on its own. -/
theorem I2c.transact_restart_split (acknowledges : Phase → Bool) (delay : Phase → Nat)
    (timeout : Nat) (writing reading : List Phase)
    (hwrite : (I2c.transact acknowledges delay timeout (Phase.Start :: writing)).2
      = Outcome.Complete)
    (htime : (I2c.transact acknowledges delay timeout
        ((Phase.Start :: writing) ++ Phase.RestartPhase :: reading)).2
      ≠ Outcome.Failed Failure.Timeout) :
    ∃ seen outcome,
      I2c.transact acknowledges delay timeout (Phase.Start :: reading)
        = (Phase.Start :: seen, outcome) ∧
      I2c.transact acknowledges delay timeout
          ((Phase.Start :: writing) ++ Phase.RestartPhase :: reading)
        = ((Phase.Start :: writing) ++ Phase.RestartPhase :: seen, outcome) ∧
      (I2c.transact acknowledges delay timeout (Phase.Start :: writing)).1
        = (Phase.Start :: writing) ++ [Phase.Stop] ∧
      (Phase.Start ∉ reading → Phase.Start ∉ seen) := by
  obtain ⟨hseen, hcost, happ⟩ :=
    I2c.transact_append_of_Complete acknowledges delay (Phase.Start :: writing)
      (Phase.RestartPhase :: reading) timeout hwrite
  have hsum : phaseCost delay (Phase.Start :: writing)
      = delay Phase.Start + phaseCost delay writing := by
    simp [phaseCost]
  rw [happ] at htime
  have hrestart : ¬ timeout - phaseCost delay (Phase.Start :: writing)
      < delay Phase.RestartPhase := by
    intro hlate
    apply htime
    simp [I2c.transact, hlate]
  have hstep : I2c.transact acknowledges delay
      (timeout - phaseCost delay (Phase.Start :: writing)) (Phase.RestartPhase :: reading)
      = (Phase.RestartPhase :: (I2c.transact acknowledges delay
            (timeout - phaseCost delay (Phase.Start :: writing) - delay Phase.RestartPhase)
            reading).1,
          (I2c.transact acknowledges delay
            (timeout - phaseCost delay (Phase.Start :: writing) - delay Phase.RestartPhase)
            reading).2) := by
    rw [I2c.transact]
    simp [hrestart, I2c.expectsAck]
  rw [hstep] at htime happ
  have hstart : ¬ timeout < delay Phase.Start := by omega
  have hmono := I2c.transact_budget_mono acknowledges delay reading
    (timeout - phaseCost delay (Phase.Start :: writing) - delay Phase.RestartPhase)
    (timeout - delay Phase.Start) (by omega) htime
  refine ⟨_, _, ?_, happ, hseen, ?_⟩
  · rw [I2c.transact]
    simp only [hstart, I2c.expectsAck, Bool.false_and, if_false]
    rw [hmono]
    simp
  · intro hno
    exact I2c.Start_not_mem_transact acknowledges delay reading hno _

/-- Claim C5 as stated fails on the transaction model: with a target that answers no
address, with a time budget that covers each half but not both, and with a receive
buffer shorter than the requested length, the trace of `WriteThenRead` differs from the
trace of `Write` followed by `Read` with Stop/Start replaced by a restart. -/
theorem WriteThenRead_trace_differs_on_failure :
    (I2c.WriteThenRead silentBus 80 [1, 2] [0] 1 10).bus.trace
      ≠ fuseRestart (I2c.Read (I2c.Write silentBus 80 [1, 2] 10).1 80 [0] 1 10).bus.trace ∧
    (I2c.WriteThenRead silentBus 80 [1, 2] [0] 1 10).bus.trace
      = [Phase.Start, Phase.AddressPhase 80 Direction.write, Phase.Stop] ∧
    (I2c.WriteThenRead steadyBus 80 [7] [0] 1 3).bus.trace
      ≠ fuseRestart (I2c.Read (I2c.Write steadyBus 80 [7] 3).1 80 [0] 1 3).bus.trace ∧
    (I2c.WriteThenRead steadyBus 80 [7] [] 1 3).bus.trace
      ≠ fuseRestart (I2c.Read (I2c.Write steadyBus 80 [7] 3).1 80 [] 1 3).bus.trace := by
  decide

/-- Claim C5, amended: for every target, address, transmit buffer, receive buffer and
length, if `Write` completes, the receive buffer holds `length` bytes and `WriteThenRead`
does not time out, then the phase trace of `WriteThenRead` on a fresh double equals the
trace of `Write` immediately followed by `Read` with the Stop/Start pair between them
replaced by a single restart; outcome and receive buffer agree as well. -/
theorem WriteThenRead_trace_eq_Write_Read_restart (supply : Nat → Nat)
    (acknowledges : Phase → Bool) (delay : Phase → Nat) (address : Nat)
    (transmit receive_buffer : List Nat) (length timeout : Nat)
    (hwrite : (I2c.Write (BusDouble.fresh supply acknowledges delay) address transmit
      timeout).2 = Outcome.Complete)
    (hroom : length ≤ receive_buffer.length)
    (htime : (I2c.WriteThenRead (BusDouble.fresh supply acknowledges delay) address transmit
      receive_buffer length timeout).outcome ≠ Outcome.Failed Failure.Timeout) :
    (I2c.WriteThenRead (BusDouble.fresh supply acknowledges delay) address transmit
        receive_buffer length timeout).bus.trace
      = fuseRestart
          (I2c.Read (I2c.Write (BusDouble.fresh supply acknowledges delay) address transmit
            timeout).1 address receive_buffer length timeout).bus.trace ∧
    (∃ front back : List Phase,
      (I2c.Write (BusDouble.fresh supply acknowledges delay) address transmit
          timeout).1.trace = front ++ [Phase.Stop] ∧
      (I2c.Read (I2c.Write (BusDouble.fresh supply acknowledges delay) address transmit
          timeout).1 address receive_buffer length timeout).bus.trace
        = front ++ Phase.Stop :: Phase.Start :: back ∧
      (I2c.WriteThenRead (BusDouble.fresh supply acknowledges delay) address transmit
          receive_buffer length timeout).bus.trace
        = front ++ Phase.RestartPhase :: back) ∧
    (I2c.WriteThenRead (BusDouble.fresh supply acknowledges delay) address transmit
        receive_buffer length timeout).outcome
      = (I2c.Read (I2c.Write (BusDouble.fresh supply acknowledges delay) address transmit
          timeout).1 address receive_buffer length timeout).outcome ∧
    (I2c.WriteThenRead (BusDouble.fresh supply acknowledges delay) address transmit
        receive_buffer length timeout).receive_buffer
      = (I2c.Read (I2c.Write (BusDouble.fresh supply acknowledges delay) address transmit
          timeout).1 address receive_buffer length timeout).receive_buffer := by
  have hcap : ¬ receive_buffer.length < length := by omega
  have hplan : [Phase.Start, Phase.AddressPhase address Direction.write] ++
        I2c.writePhases transmit ++
        [Phase.RestartPhase, Phase.AddressPhase address Direction.read] ++
        I2c.readPhases supply length
      = (Phase.Start :: (Phase.AddressPhase address Direction.write ::
            I2c.writePhases transmit)) ++
          Phase.RestartPhase :: (Phase.AddressPhase address Direction.read ::
            I2c.readPhases supply length) := by
    simp
  simp only [I2c.WriteThenRead, I2c.Read, I2c.Write, BusDouble.fresh, BusDouble.record,
    hcap, if_false, hplan, List.nil_append] at htime ⊢
  have hwrite' : (I2c.transact acknowledges delay timeout
      (Phase.Start :: (Phase.AddressPhase address Direction.write ::
        I2c.writePhases transmit))).2 = Outcome.Complete := hwrite
  obtain ⟨seen, outcome, hread, hboth, hfront, hnoStart⟩ :=
    I2c.transact_restart_split acknowledges delay timeout
      (Phase.AddressPhase address Direction.write :: I2c.writePhases transmit)
      (Phase.AddressPhase address Direction.read :: I2c.readPhases supply length)
      hwrite' htime
  have hseen : Phase.Start ∉ seen :=
    hnoStart (by simp [I2c.Start_not_mem_readPhases])
  have hnoStop : Phase.Stop ∉ Phase.Start ::
      (Phase.AddressPhase address Direction.write :: I2c.writePhases transmit) := by
    simp [I2c.Stop_not_mem_writePhases]
  have hread' : I2c.transact acknowledges delay timeout
      ([Phase.Start, Phase.AddressPhase address Direction.read] ++
        I2c.readPhases supply length) = (Phase.Start :: seen, outcome) := hread
  have hfront' : (I2c.transact acknowledges delay timeout
      ([Phase.Start, Phase.AddressPhase address Direction.write] ++
        I2c.writePhases transmit)).1
      = (Phase.Start :: (Phase.AddressPhase address Direction.write ::
          I2c.writePhases transmit)) ++ [Phase.Stop] := hfront
  rw [hboth, hread', hfront']
  refine ⟨?_, ⟨Phase.Start :: (Phase.AddressPhase address Direction.write ::
      I2c.writePhases transmit), seen, rfl, by simp, rfl⟩, rfl, rfl⟩
  have hfuse := fuseRestart_append_of_no_Stop _ (Phase.Stop :: Phase.Start :: seen) hnoStop
  simp only [List.append_assoc, List.singleton_append]
  rw [hfuse, fuseRestart, fuseRestart_of_no_Start seen hseen]

/-- Instance: two bytes written and two read on a double that acknowledges everything,
one tick per phase, a budget of ten ticks and a three-byte receive buffer. -/
theorem WriteThenRead_steady_example :
    (I2c.WriteThenRead steadyBus 80 [1, 2] [0, 0, 9] 2 10).bus.trace
      = [Phase.Start, Phase.AddressPhase 80 Direction.write, Phase.WritePhase 1,
          Phase.WritePhase 2, Phase.RestartPhase, Phase.AddressPhase 80 Direction.read,
          Phase.ReadPhase 100 true, Phase.ReadPhase 101 false, Phase.Stop] ∧
    (I2c.WriteThenRead steadyBus 80 [1, 2] [0, 0, 9] 2 10).bus.trace
      = fuseRestart
          (I2c.Read (I2c.Write steadyBus 80 [1, 2] 10).1 80 [0, 0, 9] 2 10).bus.trace :=
  ⟨by decide,
    (WriteThenRead_trace_eq_Write_Read_restart (fun k => 100 + k) (fun _ => true)
      (fun _ => 1) 80 [1, 2] [0, 0, 9] 2 10 (by decide) (by decide) (by decide)).1⟩

end SJSUDev2
